import Mathlib

/-!
Shallow embedding of the FlightWatch tooling repository.

Two source files are modelled:

* `src/firmware/tools/fetch_flightwatch_lookup.py` — the Lookup Builder.
  A CSV row (`csv.DictReader` output) is modelled as an association list
  from column name to `Option String` (`r.get(field)` can yield `None`
  either because the key is absent or because the stored value is `None`).
  The Python `dict` that `build_lookup` fills by assignment
  (`out[code] = name`) is modelled as an assignment log, a
  `List (String × String)` in assignment order, read back by `dictGet`,
  which returns the *last* binding of a key — exactly the final mapping of
  the Python dict.

* `src/gen_tz.py` — the Timezone Table Generator, modelled line by line.

Python string primitives (`strip`, `upper`, `lower`, `join`) are modelled
as `pyStrip`, `pyUpper`, `pyLower`, `pyJoinSpace` over the character list
of a `String`.
-/

namespace FlightWatch

/-- One CSV row as produced by `csv.DictReader`: column name to value,
a value being possibly `None`. -/
def Row : Type := List (String × Option String)

/-- `r.get(field)` on a row: first (unique) matching column, `none` when
the column is absent. -/
def rowGet : Row → String → Option (Option String)
  | [], _ => none
  | (k, v) :: rest, f => if k = f then some v else rowGet rest f

/-- `(r.get(field) or "")` — a missing column, a `None` value and an empty
string all collapse to `""`. -/
def getStr (r : Row) (f : String) : String :=
  match rowGet r f with
  | some (some v) => v
  | _ => ""

/-- Python `str.strip()`: drop whitespace from both ends. -/
def pyStrip (s : String) : String :=
  ⟨((s.data.dropWhile Char.isWhitespace).reverse.dropWhile Char.isWhitespace).reverse⟩

/-- Python `str.upper()` (ASCII fragment). -/
def pyUpper (s : String) : String := ⟨s.data.map Char.toUpper⟩

/-- Python `str.lower()` (ASCII fragment). -/
def pyLower (s : String) : String := ⟨s.data.map Char.toLower⟩

/-- Python `" ".join(parts)`. -/
def pyJoinSpace : List String → String
  | [] => ""
  | [x] => x
  | x :: y :: rest => x ++ " " ++ pyJoinSpace (y :: rest)

/-- The `for field in (...)` loop of `airline_name` / `aircraft_name`:
return the first field whose stripped value is non-empty, else `""`. -/
def firstNonEmptyField (r : Row) : List String → String
  | [] => ""
  | f :: fs =>
    let v := pyStrip (getStr r f)
    if v ≠ "" then v else firstNonEmptyField r fs

/-- `airline_name(r)` from `fetch_flightwatch_lookup.py`. -/
def airline_name (r : Row) : String :=
  firstNonEmptyField r ["name", "name2", "alias"]

/-- `aircraft_name(r)` from `fetch_flightwatch_lookup.py`: the candidate
loop, then the `" ".join(filter(None, [manufacturer, model]))` fallback. -/
def aircraft_name (r : Row) : String :=
  let v := firstNonEmptyField r ["name", "model", "model_name", "text", "type"]
  if v ≠ "" then v
  else pyStrip (pyJoinSpace (List.filter (fun s => !(s == ""))
    [pyStrip (getStr r "manufacturer"), pyStrip (getStr r "model")]))

/-- The body of one iteration of the `build_lookup` loop: the assignments
this row makes to `out` (empty when the row is filtered out, the single
assignment `out[code] = name` otherwise). -/
def rowEntry (code_field : String) (name_fn : Row → String)
    (min_len max_len : Nat) (r : Row) : List (String × String) :=
  let code := pyUpper (pyStrip (getStr r code_field))
  if min_len ≤ code.length ∧ code.length ≤ max_len then
    let name := name_fn r
    if name ≠ "" then [(code, name)] else []
  else []

/-- `build_lookup(rows, code_field, name_fn, min_len, max_len)`: the dict
`out` as its assignment log, in row order. -/
def build_lookup (rows : List Row) (code_field : String) (name_fn : Row → String)
    (min_len max_len : Nat) : List (String × String) :=
  rows.foldl (fun out r => out ++ rowEntry code_field name_fn min_len max_len r) []

/-- Reading a key back from an assignment log: the last assignment wins,
exactly as in a Python dict. -/
def dictGet : List (String × String) → String → Option String
  | [], _ => none
  | p :: rest, k =>
    match dictGet rest k with
    | some v => some v
    | none => if p.1 = k then some p.2 else none

/-- An HTTP response as seen by `load_rows`: its status code and its body,
already split into `csv.DictReader` rows (CSV lexing itself is not
modelled; no claim depends on it). -/
structure HttpResponse where
  status : Nat
  body : List Row

/-- `load_rows(url)` from `fetch_flightwatch_lookup.py`, with the transport
made explicit: the argument is either a transport failure
(`requests.get` raising) or a response; `r.raise_for_status()` turns a
status of 400 or above into a failure as well. -/
def load_rows (resp : Except Unit HttpResponse) : Except Unit (List Row) :=
  match resp with
  | Except.error e => Except.error e
  | Except.ok r => if r.status < 400 then Except.ok r.body else Except.error ()

/-- The two output files of the Lookup Builder; `none` means the file was
not (yet) written in this run. -/
structure OutputFiles where
  airlinesJson : Option (List (String × String))
  aircraftJson : Option (List (String × String))
deriving DecidableEq

/-- The `__main__` block of `fetch_flightwatch_lookup.py`: fetch airlines,
fetch aircraft, then write both files. An uncaught exception from either
`load_rows` call aborts the run before either `open(..., "w")` runs: the
file state is returned unchanged and the completion flag is `false`. -/
def mainRun (respAirlines respAircraft : Except Unit HttpResponse)
    (fs : OutputFiles) : OutputFiles × Bool :=
  match load_rows respAirlines with
  | Except.error _ => (fs, false)
  | Except.ok airlineRows =>
    match load_rows respAircraft with
    | Except.error _ => (fs, false)
    | Except.ok aircraftRows =>
      ({ airlinesJson := some (build_lookup airlineRows "3char_code" airline_name 3 4),
         aircraftJson := some (build_lookup aircraftRows "icao_code" aircraft_name 3 4) },
       true)

/-- The seven fixed lines `gen_tz.py` puts into `lines` before the loop. -/
def tzHeader : List String :=
  ["#pragma once",
   "",
   "#include <stdint.h>",
   "",
   "struct IanaPosixEntry \x7b const char *iana; const char *posix; \x7d;",
   "",
   "static const IanaPosixEntry IANA_POSIX_DB[] PROGMEM = \x7b"]

/-- One loop iteration of `gen_tz.py`:
`'    {"%s", "%s"},' % (r[0].lower(), r[1])`. -/
def tzEntryLine (r : String × String) : String :=
  "    \x7b\"" ++ pyLower r.1 ++ "\", \"" ++ r.2 ++ "\"\x7d,"

/-- The trailing `'static const size_t IANA_POSIX_DB_COUNT = %d;' % len(rows)`. -/
def countLine (rows : List (String × String)) : String :=
  "static const size_t IANA_POSIX_DB_COUNT = " ++ toString rows.length ++ ";"

/-- The full `lines` list built by `gen_tz.py`: header, one entry appended
per input row in input order, closing brace, blank line, count constant. -/
def gen_tz_lines (rows : List (String × String)) : List String :=
  (rows.foldl (fun acc r => acc ++ [tzEntryLine r]) tzHeader)
    ++ ["\x7d;", "", countLine rows]

/-- `'\n'.join(lines)`, the text written to `firmware/config/IanaPosixDb.h`. -/
def tzFileContent (rows : List (String × String)) : String :=
  "\n".intercalate (gen_tz_lines rows)

/-! ## Helper lemmas about `build_lookup` and `dictGet` -/

/-- Pulling the accumulator out of the `build_lookup` fold. -/
theorem foldl_entries_extract (cf : String) (nfn : Row → String) (mn mx : Nat)
    (l : List Row) (acc : List (String × String)) :
    l.foldl (fun out r => out ++ rowEntry cf nfn mn mx r) acc
      = acc ++ l.foldl (fun out r => out ++ rowEntry cf nfn mn mx r) [] := by
  induction l generalizing acc with
  | nil => simp
  | cons r rest ih =>
    simp only [List.foldl_cons, List.nil_append]
    rw [ih (acc ++ rowEntry cf nfn mn mx r), ih (rowEntry cf nfn mn mx r),
      List.append_assoc]

/-- `build_lookup` distributes over list append. -/
theorem build_lookup_append (l1 l2 : List Row) (cf : String) (nfn : Row → String)
    (mn mx : Nat) :
    build_lookup (l1 ++ l2) cf nfn mn mx
      = build_lookup l1 cf nfn mn mx ++ build_lookup l2 cf nfn mn mx := by
  unfold build_lookup
  rw [List.foldl_append, foldl_entries_extract]

/-- Unfolding one row of `build_lookup`. -/
theorem build_lookup_cons (r : Row) (l : List Row) (cf : String) (nfn : Row → String)
    (mn mx : Nat) :
    build_lookup (r :: l) cf nfn mn mx
      = rowEntry cf nfn mn mx r ++ build_lookup l cf nfn mn mx := by
  unfold build_lookup
  simp only [List.foldl_cons, List.nil_append]
  exact foldl_entries_extract cf nfn mn mx l (rowEntry cf nfn mn mx r)

/-- A row whose normalized code fails the length bound contributes nothing. -/
theorem rowEntry_eq_nil (cf : String) (nfn : Row → String) (mn mx : Nat) (r : Row)
    (h : ¬ (mn ≤ (pyUpper (pyStrip (getStr r cf))).length
          ∧ (pyUpper (pyStrip (getStr r cf))).length ≤ mx)) :
    rowEntry cf nfn mn mx r = [] := by
  unfold rowEntry
  simp only [if_neg h]

/-- A row that passes the length bound and selects a non-empty name
contributes exactly one assignment. -/
theorem rowEntry_eq_single (cf : String) (nfn : Row → String) (mn mx : Nat) (r : Row)
    (hlen : mn ≤ (pyUpper (pyStrip (getStr r cf))).length
          ∧ (pyUpper (pyStrip (getStr r cf))).length ≤ mx)
    (hname : nfn r ≠ "") :
    rowEntry cf nfn mn mx r = [(pyUpper (pyStrip (getStr r cf)), nfn r)] := by
  unfold rowEntry
  simp only [if_pos hlen, if_pos hname]

/-- A row that contributes nothing can be dropped from the input list. -/
theorem build_lookup_drop_row (l1 l2 : List Row) (r : Row) (cf : String)
    (nfn : Row → String) (mn mx : Nat) (h : rowEntry cf nfn mn mx r = []) :
    build_lookup (l1 ++ r :: l2) cf nfn mn mx = build_lookup (l1 ++ l2) cf nfn mn mx := by
  rw [build_lookup_append, build_lookup_cons, h, List.nil_append, ← build_lookup_append]

/-- Reading one assignment. -/
theorem dictGet_cons (p : String × String) (rest : List (String × String)) (k : String) :
    dictGet (p :: rest) k
      = Option.or (dictGet rest k) (if p.1 = k then some p.2 else none) := by
  cases h : dictGet rest k <;> simp [dictGet, h, Option.or]

/-- Reading an assignment log that is a concatenation: the later block wins. -/
theorem dictGet_append (m1 m2 : List (String × String)) (k : String) :
    dictGet (m1 ++ m2) k = Option.or (dictGet m2 k) (dictGet m1 k) := by
  induction m1 with
  | nil =>
    cases h : dictGet m2 k <;> simp [dictGet, h, Option.or]
  | cons p m1 ih =>
    rw [List.cons_append, dictGet_cons, ih, dictGet_cons, Option.or_assoc]

/-- The value a middle row gives a key, unless a later row reassigns it. -/
theorem dictGet_build_middle (l1 l2 : List Row) (r : Row) (cf : String)
    (nfn : Row → String) (mn mx : Nat) (c : String)
    (hc : pyUpper (pyStrip (getStr r cf)) = c)
    (hlen : mn ≤ c.length ∧ c.length ≤ mx)
    (hname : nfn r ≠ "") :
    dictGet (build_lookup (l1 ++ r :: l2) cf nfn mn mx) c
      = Option.or (dictGet (build_lookup l2 cf nfn mn mx) c) (some (nfn r)) := by
  have hre : rowEntry cf nfn mn mx r = [(c, nfn r)] := by
    rw [← hc] at hlen ⊢
    exact rowEntry_eq_single cf nfn mn mx r hlen hname
  rw [build_lookup_append, build_lookup_cons, hre, dictGet_append,
    List.cons_append, dictGet_cons, if_pos rfl, Option.or_assoc, Option.or_some]
  simp

/-! ## The claims -/

/-- C1: a row whose code field, trimmed and uppercased, has length outside
the inclusive range [3,4] is excluded from the map `build_lookup` builds:
the output over any input list containing the row equals the output with
the row removed, for every name function. -/
theorem c1_code_length_filter_excludes_row (l1 l2 : List Row) (r : Row)
    (cf : String) (nfn : Row → String)
    (h : (pyUpper (pyStrip (getStr r cf))).length < 3
       ∨ 4 < (pyUpper (pyStrip (getStr r cf))).length) :
    build_lookup (l1 ++ r :: l2) cf nfn 3 4 = build_lookup (l1 ++ l2) cf nfn 3 4 := by
  refine build_lookup_drop_row l1 l2 r cf nfn 3 4 (rowEntry_eq_nil cf nfn 3 4 r ?_)
  rcases h with h | h <;> omega

/-- Witness for C1 at a concrete input: the code `"aa "` normalizes to
`"AA"` of length 2, and the row is dropped. -/
theorem c1_code_length_filter_excludes_row_witness :
    ((pyUpper (pyStrip (getStr ([("3char_code", some "aa "),
        ("name", some "American Airlines")] : Row) "3char_code"))).length < 3
      ∨ 4 < (pyUpper (pyStrip (getStr ([("3char_code", some "aa "),
        ("name", some "American Airlines")] : Row) "3char_code"))).length)
    ∧ build_lookup ([] ++ ([("3char_code", some "aa "),
          ("name", some "American Airlines")] : Row) :: []) "3char_code" airline_name 3 4
        = build_lookup ([] ++ []) "3char_code" airline_name 3 4 :=
  ⟨Or.inl (by decide),
   c1_code_length_filter_excludes_row [] [] _ "3char_code" airline_name (Or.inl (by decide))⟩

/-- C2 counterexample: on the spec's example row
`{3char_code: "aa ", name: "", name2: "American Airlines", alias: "AA"}`
the map built by `build_lookup` has no key `"AA"` at all (the claim says it
maps `"AA"` to `"American Airlines"`). -/
theorem c2_example_row_counterexample :
    dictGet (build_lookup [([("3char_code", some "aa "), ("name", some ""),
        ("name2", some "American Airlines"), ("alias", some "AA")] : Row)]
      "3char_code" airline_name 3 4) "AA" = none := by
  decide

/-- C2 amended: the example row is excluded — its code `"aa "` normalizes
to `"AA"`, whose length 2 is below the minimum 3 — so the output map is
empty; with a three-character code such as `"aal "` the row is kept and
maps `"AAL"` to `"American Airlines"` (the name2 fallback as described). -/
theorem c2_example_row_amended :
    build_lookup [([("3char_code", some "aa "), ("name", some ""),
        ("name2", some "American Airlines"), ("alias", some "AA")] : Row)]
      "3char_code" airline_name 3 4 = []
    ∧ dictGet (build_lookup [([("3char_code", some "aal "), ("name", some ""),
        ("name2", some "American Airlines"), ("alias", some "AA")] : Row)]
      "3char_code" airline_name 3 4) "AAL" = some "American Airlines" := by
  constructor <;> decide

/-- C3 counterexample: on the spec's example aircraft row the map does not
send `"A320"` to `"Airbus A320"` — the non-empty `model` field `"A320"` is
selected before the manufacturer+model fallback is ever reached. -/
theorem c3_example_row_counterexample :
    dictGet (build_lookup [([("icao_code", some "a320"), ("manufacturer", some "Airbus"),
        ("model", some "A320"), ("name", some ""), ("model_name", some ""),
        ("text", some ""), ("type", some "")] : Row)]
      "icao_code" aircraft_name 3 4) "A320" ≠ some "Airbus A320" := by
  decide

/-- C3 amended: for the example aircraft row, `aircraft_name` returns the
`model` field `"A320"` (the first non-empty candidate in priority order),
so `build_lookup` maps the key `"A320"` to the value `"A320"`, not to the
manufacturer+model concatenation. -/
theorem c3_example_row_amended :
    aircraft_name ([("icao_code", some "a320"), ("manufacturer", some "Airbus"),
        ("model", some "A320"), ("name", some ""), ("model_name", some ""),
        ("text", some ""), ("type", some "")] : Row) = "A320"
    ∧ dictGet (build_lookup [([("icao_code", some "a320"), ("manufacturer", some "Airbus"),
        ("model", some "A320"), ("name", some ""), ("model_name", some ""),
        ("text", some ""), ("type", some "")] : Row)]
      "icao_code" aircraft_name 3 4) "A320" = some "A320" := by
  constructor <;> decide

/-- C4 counterexample: the claim quantifies over all rows, including lists
where a later row carries the same normalized code; there the earlier row
passes the filter and selects name `"X"`, yet the final map binds the code
to the later row's name `"Y"`, not to the earlier row's first non-empty
candidate. -/
theorem c4_first_candidate_counterexample :
    airline_name ([("3char_code", some "AAA"), ("name", some "X")] : Row) = "X"
    ∧ pyUpper (pyStrip (getStr ([("3char_code", some "AAA"),
        ("name", some "X")] : Row) "3char_code")) = "AAA"
    ∧ dictGet (build_lookup [([("3char_code", some "AAA"), ("name", some "X")] : Row),
        ([("3char_code", some "AAA"), ("name", some "Y")] : Row)]
        "3char_code" airline_name 3 4) "AAA"
      ≠ some (airline_name ([("3char_code", some "AAA"), ("name", some "X")] : Row)) := by
  refine ⟨by decide, by decide, by decide⟩

/-- C4 amended: for every row whose normalized code passes the [3,4]
length filter and whose selected name is non-empty, the output map does
contain that code; and it is mapped to that row's selected name provided
no row later in the input also contributes an entry for the same code
(otherwise the last such row's name wins). -/
theorem c4_valid_row_in_map (l1 l2 : List Row) (r : Row) (cf : String)
    (nfn : Row → String)
    (hlen : 3 ≤ (pyUpper (pyStrip (getStr r cf))).length
          ∧ (pyUpper (pyStrip (getStr r cf))).length ≤ 4)
    (hname : nfn r ≠ "") :
    (∃ v, dictGet (build_lookup (l1 ++ r :: l2) cf nfn 3 4)
        (pyUpper (pyStrip (getStr r cf))) = some v)
    ∧ (dictGet (build_lookup l2 cf nfn 3 4) (pyUpper (pyStrip (getStr r cf))) = none →
        dictGet (build_lookup (l1 ++ r :: l2) cf nfn 3 4)
          (pyUpper (pyStrip (getStr r cf))) = some (nfn r)) := by
  have h := dictGet_build_middle l1 l2 r cf nfn 3 4
    (pyUpper (pyStrip (getStr r cf))) rfl hlen hname
  constructor
  · rw [h]
    cases hd : dictGet (build_lookup l2 cf nfn 3 4) (pyUpper (pyStrip (getStr r cf))) with
    | none => exact ⟨nfn r, rfl⟩
    | some w => exact ⟨w, rfl⟩
  · intro hnone
    rw [h, hnone]
    rfl

/-- Witness for C4 (amended) at a concrete input: the single row with code
`"aaa"` and name `"Alpha"`. -/
theorem c4_valid_row_in_map_witness :
    (∃ v, dictGet (build_lookup ([] ++ ([("3char_code", some "aaa"),
          ("name", some "Alpha")] : Row) :: []) "3char_code" airline_name 3 4)
        (pyUpper (pyStrip (getStr ([("3char_code", some "aaa"),
          ("name", some "Alpha")] : Row) "3char_code"))) = some v)
    ∧ (dictGet (build_lookup [] "3char_code" airline_name 3 4)
          (pyUpper (pyStrip (getStr ([("3char_code", some "aaa"),
            ("name", some "Alpha")] : Row) "3char_code"))) = none →
        dictGet (build_lookup ([] ++ ([("3char_code", some "aaa"),
            ("name", some "Alpha")] : Row) :: []) "3char_code" airline_name 3 4)
          (pyUpper (pyStrip (getStr ([("3char_code", some "aaa"),
            ("name", some "Alpha")] : Row) "3char_code")))
          = some (airline_name ([("3char_code", some "aaa"),
            ("name", some "Alpha")] : Row))) :=
  c4_valid_row_in_map [] [] _ "3char_code" airline_name ⟨by decide, by decide⟩ (by decide)

/-- C5: when two rows of the input normalize to the same code, both pass
the length filter and both select a non-empty name, and no row after the
second one contributes that code again, the final map binds the code to
the name of the later of the two rows — last write wins. -/
theorem c5_duplicate_code_last_write_wins (l1 l2 l3 : List Row) (r1 r2 : Row)
    (cf : String) (nfn : Row → String) (c : String)
    (hc1 : pyUpper (pyStrip (getStr r1 cf)) = c)
    (hc2 : pyUpper (pyStrip (getStr r2 cf)) = c)
    (hlen : 3 ≤ c.length ∧ c.length ≤ 4)
    (hn1 : nfn r1 ≠ "") (hn2 : nfn r2 ≠ "")
    (hlast : dictGet (build_lookup l3 cf nfn 3 4) c = none) :
    dictGet (build_lookup (l1 ++ r1 :: (l2 ++ r2 :: l3)) cf nfn 3 4) c
      = some (nfn r2) := by
  have h := dictGet_build_middle (l1 ++ r1 :: l2) l3 r2 cf nfn 3 4 c hc2 hlen hn2
  have e : (l1 ++ r1 :: l2) ++ r2 :: l3 = l1 ++ r1 :: (l2 ++ r2 :: l3) := by
    simp
  rw [e] at h
  rw [h, hlast]
  rfl

/-- Witness for C5 at a concrete input: two rows with code `"AAA"` and
names `"X"` then `"Y"`; the map returns `"Y"`. -/
theorem c5_duplicate_code_last_write_wins_witness :
    dictGet (build_lookup ([] ++ ([("3char_code", some "AAA"), ("name", some "X")] : Row)
        :: ([] ++ ([("3char_code", some "AAA"), ("name", some "Y")] : Row) :: []))
      "3char_code" airline_name 3 4) "AAA"
      = some (airline_name ([("3char_code", some "AAA"), ("name", some "Y")] : Row)) :=
  c5_duplicate_code_last_write_wins [] [] [] _ _ "3char_code" airline_name "AAA"
    (by decide) (by decide) ⟨by decide, by decide⟩ (by decide) (by decide) (by decide)

/-- C9: a missing field and a `None`-valued field behave exactly like the
empty string — `r.get(field) or ""` yields `""` in both cases, a missing
candidate name field is skipped by the field-priority loop, and a row
whose code field is absent is silently excluded by `build_lookup` (its
code normalizes to `""`, which fails the [3,4] length filter). Totality is
by construction: every modelled function is a total Lean function. -/
theorem c9_missing_fields_as_empty :
    (∀ (r : Row) (f : String), rowGet r f = none → getStr r f = "")
    ∧ (∀ (r : Row) (f : String), rowGet r f = some none → getStr r f = "")
    ∧ (∀ (r : Row) (f : String) (fs : List String),
        rowGet r f = none ∨ rowGet r f = some none →
        firstNonEmptyField r (f :: fs) = firstNonEmptyField r fs)
    ∧ (∀ (l1 l2 : List Row) (r : Row) (cf : String) (nfn : Row → String),
        rowGet r cf = none ∨ rowGet r cf = some none →
        build_lookup (l1 ++ r :: l2) cf nfn 3 4 = build_lookup (l1 ++ l2) cf nfn 3 4) := by
  have hget : ∀ (r : Row) (f : String),
      rowGet r f = none ∨ rowGet r f = some none → getStr r f = "" := by
    intro r f h
    unfold getStr
    rcases h with h | h <;> rw [h]
  refine ⟨fun r f h => hget r f (Or.inl h), fun r f h => hget r f (Or.inr h), ?_, ?_⟩
  · intro r f fs h
    rw [show firstNonEmptyField r (f :: fs)
          = if pyStrip (getStr r f) ≠ "" then pyStrip (getStr r f)
            else firstNonEmptyField r fs from rfl,
      hget r f h, show pyStrip "" = "" from rfl]
    simp
  · intro l1 l2 r cf nfn h
    refine build_lookup_drop_row l1 l2 r cf nfn 3 4 (rowEntry_eq_nil cf nfn 3 4 r ?_)
    rw [hget r cf h]
    decide

/-- Witness for C9 at concrete inputs: an empty row, a row whose `name`
is `None`, and a row with no `3char_code` column. -/
theorem c9_missing_fields_as_empty_witness :
    getStr ([] : Row) "3char_code" = ""
    ∧ getStr ([("name", none)] : Row) "name" = ""
    ∧ firstNonEmptyField ([("name2", some "B")] : Row) ("name" :: ["name2"])
        = firstNonEmptyField ([("name2", some "B")] : Row) ["name2"]
    ∧ build_lookup ([] ++ ([("name", some "X")] : Row) :: []) "3char_code" airline_name 3 4
        = build_lookup ([] ++ []) "3char_code" airline_name 3 4 :=
  ⟨c9_missing_fields_as_empty.1 [] "3char_code" rfl,
   c9_missing_fields_as_empty.2.1 [("name", none)] "name" (by decide),
   c9_missing_fields_as_empty.2.2.1 [("name2", some "B")] "name" ["name2"] (Or.inl (by decide)),
   c9_missing_fields_as_empty.2.2.2 [] [] [("name", some "X")] "3char_code" airline_name
     (Or.inl (by decide))⟩

/-- C6: if fetching either dataset fails (transport error or a status that
`raise_for_status` rejects), the run aborts before any output file is
written: the file state is unchanged — in particular a failing aircraft
fetch leaves `airlines.json` unwritten too, since both fetches precede
both writes — and nothing is retried. -/
theorem c6_fetch_failure_no_partial_output (ra rc : Except Unit HttpResponse)
    (fs : OutputFiles)
    (h : load_rows ra = Except.error () ∨ load_rows rc = Except.error ()) :
    mainRun ra rc fs = (fs, false) := by
  unfold mainRun
  rcases h with h | h
  · rw [h]
  · cases hra : load_rows ra with
    | error e => rfl
    | ok rows => rw [h]

/-- Witness for C6 at a concrete input: the airlines fetch succeeds with
status 200 but the aircraft fetch returns status 404, and no file is
written. -/
theorem c6_fetch_failure_no_partial_output_witness :
    load_rows (Except.ok ⟨404, []⟩) = Except.error ()
    ∧ mainRun (Except.ok ⟨200, []⟩) (Except.ok ⟨404, []⟩) ⟨none, none⟩
        = (⟨none, none⟩, false) :=
  ⟨rfl, c6_fetch_failure_no_partial_output (Except.ok ⟨200, []⟩) (Except.ok ⟨404, []⟩)
    ⟨none, none⟩ (Or.inr rfl)⟩

/-! ## Helper lemmas about `gen_tz_lines` -/

/-- Pulling the accumulator out of the `gen_tz.py` loop. -/
theorem tz_foldl_extract (rows : List (String × String)) (acc : List String) :
    rows.foldl (fun a r => a ++ [tzEntryLine r]) acc = acc ++ rows.map tzEntryLine := by
  induction rows generalizing acc with
  | nil => simp
  | cons r rest ih =>
    simp only [List.foldl_cons, List.map_cons]
    rw [ih (acc ++ [tzEntryLine r]), List.append_assoc]
    rfl

/-- The `lines` list of `gen_tz.py` in closed form. -/
theorem gen_tz_lines_eq (rows : List (String × String)) :
    gen_tz_lines rows
      = tzHeader ++ (rows.map tzEntryLine ++ ["\x7d;", "", countLine rows]) := by
  unfold gen_tz_lines
  rw [tz_foldl_extract, List.append_assoc]

/-- The line at offset `7 + i` of the generated file is the entry for
input row `i`. -/
theorem gen_tz_entry_at (rows : List (String × String)) (i : Nat)
    (h : i < rows.length) :
    (gen_tz_lines rows)[7 + i]? = Option.map tzEntryLine rows[i]? := by
  rw [gen_tz_lines_eq]
  rw [List.getElem?_append_right (show tzHeader.length ≤ 7 + i from Nat.le_add_right 7 i)]
  rw [show (7 + i) - tzHeader.length = i from Nat.add_sub_cancel_left 7 i]
  rw [List.getElem?_append_left (show i < (rows.map tzEntryLine).length by
    rw [List.length_map]; exact h)]
  exact List.getElem?_map tzEntryLine rows i

/-- C7: the Timezone Table Generator emits exactly one array entry per
input row, at offset `7 + i` for input row `i` (so in input order, with
duplicate IANA keys kept as duplicate entries, never merged), the total
line count is the row count plus the 10 fixed lines, and the emitted
`IANA_POSIX_DB_COUNT` constant equals the number of input rows. -/
theorem c7_entry_per_row_order_and_count (rows : List (String × String)) :
    (gen_tz_lines rows).length = rows.length + 10
    ∧ (∀ i : Nat, i < rows.length →
        (gen_tz_lines rows)[7 + i]? = Option.map tzEntryLine rows[i]?)
    ∧ (gen_tz_lines rows).getLast?
        = some ("static const size_t IANA_POSIX_DB_COUNT = "
            ++ toString rows.length ++ ";") := by
  refine ⟨?_, fun i h => gen_tz_entry_at rows i h, ?_⟩
  · rw [gen_tz_lines_eq]
    simp [tzHeader]
  · have e : gen_tz_lines rows
        = ((tzHeader ++ rows.map tzEntryLine) ++ ["\x7d;", ""]) ++ [countLine rows] := by
      rw [gen_tz_lines_eq]
      simp
    rw [e, List.getLast?_concat]
    rfl

/-- Witness for C7 at a concrete input: the single row
`("America/New_York", "EST5EDT,M3.2.0,M11.1.0")`. -/
theorem c7_entry_per_row_order_and_count_witness :
    (gen_tz_lines [("America/New_York", "EST5EDT,M3.2.0,M11.1.0")]).length = 1 + 10
    ∧ (gen_tz_lines [("America/New_York", "EST5EDT,M3.2.0,M11.1.0")])[7 + 0]?
        = Option.map tzEntryLine
            ([("America/New_York", "EST5EDT,M3.2.0,M11.1.0")] : List (String × String))[0]?
    ∧ (gen_tz_lines [("America/New_York", "EST5EDT,M3.2.0,M11.1.0")]).getLast?
        = some ("static const size_t IANA_POSIX_DB_COUNT = "
            ++ toString ([("America/New_York",
                "EST5EDT,M3.2.0,M11.1.0")] : List (String × String)).length ++ ";") :=
  ⟨(c7_entry_per_row_order_and_count _).1,
   (c7_entry_per_row_order_and_count _).2.1 0 (by decide),
   (c7_entry_per_row_order_and_count _).2.2⟩

/-- C8: for every input pair, the emitted array entry at the row's offset
contains the IANA identifier transformed exactly by lowercasing and the
POSIX TZ string passed through unmodified, with nothing else applied to
either field. -/
theorem c8_lowercased_iana_posix_verbatim (rows : List (String × String))
    (i : Nat) (h : i < rows.length) :
    (gen_tz_lines rows)[7 + i]?
      = Option.map (fun r : String × String =>
          "    \x7b\"" ++ pyLower r.1 ++ "\", \"" ++ r.2 ++ "\"\x7d,") rows[i]? :=
  gen_tz_entry_at rows i h

/-- Witness for C8 at the spec's example row: the emitted entry is
`    {"america/new_york", "EST5EDT,M3.2.0,M11.1.0"},`. -/
theorem c8_lowercased_iana_posix_verbatim_witness :
    (gen_tz_lines [("America/New_York", "EST5EDT,M3.2.0,M11.1.0")])[7 + 0]?
      = some "    \x7b\"america/new_york\", \"EST5EDT,M3.2.0,M11.1.0\"\x7d," :=
  (c8_lowercased_iana_posix_verbatim
    [("America/New_York", "EST5EDT,M3.2.0,M11.1.0")] 0 (by decide)).trans (by decide)

/-- C10: the generator does no escaping when substituting the two fields
into the quoted C string literal — character for character, the emitted
line is the fixed framing around the lowercased IANA name and the verbatim
POSIX string; in particular a double quote or backslash in either column
is emitted verbatim inside the quoted literal, as the concrete second
conjunct shows. -/
theorem c10_entry_line_no_escaping (iana posix : String) :
    ((tzEntryLine (iana, posix)).data
      = ("    \x7b\"").data ++ iana.data.map Char.toLower
          ++ ("\", \"").data ++ posix.data ++ ("\"\x7d,").data)
    ∧ tzEntryLine ("A\"B\\C", "P\"Q\\R") = "    \x7b\"a\"b\\c\", \"P\"Q\\R\"\x7d," := by
  constructor
  · show (("    \x7b\"" ++ pyLower iana ++ "\", \"" ++ posix ++ "\"\x7d,") : String).data = _
    simp only [String.data_append]
    rfl
  · decide

end FlightWatch
